import Mathlib

/-!
Shallow embedding of recover-broken-vdb (src/recover_broken_vdb/__init__.py).

The tool scans a Portage VDB tree, classifies each package directory as
fine/broken/unexpected from the existence of the NEEDED/PROVIDES/REQUIRES
records and the ELF binaries named by its CONTENTS manifest, and regenerates
the missing records for broken packages into a staging filesystem.

External collaborators (the `file` probe, the scanelf wrapper script, and
portage's NeededEntry.parse / SonameDepsProcessor) are modelled as function
parameters; everything else is translated from the source.
-/

namespace RecoverBrokenVdb

/-! Python string primitives, modelled over `List Char`. -/

/-- Python `s.startswith(t)`. -/
def strStartsWith (s t : String) : Bool :=
  t.toList.isPrefixOf s.toList

/-- Python `s.endswith(t)`. -/
def strEndsWith (s t : String) : Bool :=
  t.toList.isSuffixOf s.toList

/-- Occurrence of `pat` as a contiguous subsequence, on char lists. -/
def containsSub (pat : List Char) : List Char → Bool
  | [] => pat.isEmpty
  | c :: rest => pat.isPrefixOf (c :: rest) || containsSub pat rest

/-- Python `pat in s` (substring containment). -/
def strContains (s pat : String) : Bool :=
  containsSub pat.toList s.toList

/-- Split a char list at every occurrence of the separator character. -/
def splitCh (sep : Char) : List Char → List (List Char)
  | [] => [[]]
  | c :: rest =>
    let groups := splitCh sep rest
    if c = sep then [] :: groups
    else
      match groups with
      | [] => [[c]]
      | g :: gs => (c :: g) :: gs

/-- Python `s.split(sep)` for a one-character separator. -/
def strSplit (s : String) (sep : Char) : List String :=
  (splitCh sep s.toList).map (fun l => String.mk l)

/-- Python `s.rstrip("/")`. -/
def rstripSlash (s : String) : String :=
  String.mk ((s.toList.reverse.dropWhile (fun c => c = '/')).reverse)

/-- Python `s.lstrip("/")`. -/
def lstripSlash (s : String) : String :=
  String.mk (s.toList.dropWhile (fun c => c = '/'))

/-- Python `s.replace(old, new, 1)` on char lists: replace the first
occurrence of `old` only. -/
def replaceFirstL (old new : List Char) : List Char → List Char
  | [] => if old.isEmpty then new else []
  | c :: rest =>
    if old.isPrefixOf (c :: rest) then new ++ (c :: rest).drop old.length
    else c :: replaceFirstL old new rest

/-- Python `s.replace(old, new, 1)`. -/
def replaceFirst (s old new : String) : String :=
  String.mk (replaceFirstL old.toList new.toList s.toList)

/-- Python `str(pathlib.PurePosixPath(p))`: drop empty and "." components,
keep a root of "/" (or the special POSIX "//"), render "." for an empty
relative path. -/
def pathNorm (p : String) : String :=
  let l := p.toList
  let comps := (splitCh '/' l).filter (fun c => !(c.isEmpty || c = ['.']))
  let root : List Char :=
    if ['/', '/'].isPrefixOf l && !(['/', '/', '/'].isPrefixOf l) then ['/', '/']
    else if ['/'].isPrefixOf l then ['/']
    else []
  let joined := List.intercalate ['/'] comps
  if root.isEmpty && joined.isEmpty then "." else String.mk (root ++ joined)

/-- Python `line.split(" ", 1)` unpacked into two variables: `none` models the
ValueError raised when the line holds no space at all. -/
def splitFirstSpace (line : String) : Option (String × String) :=
  let l := line.toList
  if l.contains ' ' then
    some (String.mk (l.takeWhile (fun c => c ≠ ' ')),
          String.mk ((l.dropWhile (fun c => c ≠ ' ')).tail))
  else none

/-- Python `residue.split(" ")[0]`. -/
def firstField (s : String) : String :=
  String.mk (s.toList.takeWhile (fun c => c ≠ ' '))

/-- Matching of the regex `.*\.so($|\..*)` from find_corrupt_pkgs: the path
ends in ".so" or has ".so." somewhere. -/
def soLike (p : String) : Bool :=
  strEndsWith p ".so" || strContains p ".so."

/-! Data model. -/

/-- Mirror of the Package class: per-package mutable state built during the
scan of one package directory. -/
structure Package where
  cpf : String
  contents : List String
  dyn_paths : List String
  broken : Bool
  installs_any_dyn_executable : Bool
  installs_any_shared_libs : Bool
deriving DecidableEq, Repr

/-- One VDB package directory as find_corrupt_pkgs sees it: the two path
components, which metadata records exist, the raw text of the CONTENTS
manifest (none when the file is missing), and the `file -b` collaborator
output for each installed path. -/
structure PackageDir where
  category : String
  pf : String
  hasNEEDED : Bool
  hasPROVIDES : Bool
  hasREQUIRES : Bool
  contentsText : Option String
  probe : String → String

/-- Python `category + "/" + pf`, i.e. `full_path.relative_to(vdb_path)`. -/
def PackageDir.cpf (d : PackageDir) : String :=
  d.category ++ "/" ++ d.pf

/-- Processing of one CONTENTS line (the body of the per-line loop in
find_corrupt_pkgs); `none` models the uncaught ValueError on a space-free
line. -/
def scanLine (deep : Bool) (probe : String → String) (pkg : Package)
    (line : String) : Option Package :=
  if line = "" then some pkg
  else
    match splitFirstSpace line with
    | none => none
    | some (installed_type, residue) =>
      if installed_type ≠ "obj" then some pkg
      else
        let installed_path := firstField residue
        let m := soLike installed_path
        if !m && !deep && !strContains installed_path "bin"
            && !strContains installed_path "libexec" then some pkg
        else if strStartsWith installed_path "/usr/share/"
            || strStartsWith installed_path "/usr/include/" then some pkg
        else
          let res := probe installed_path
          if !strContains res "ELF" || !strContains res "dynamically linked" then
            some pkg
          else
            let pkg :=
              if strContains res "executable" && !pkg.installs_any_dyn_executable then
                { pkg with installs_any_dyn_executable := true }
              else pkg
            let pkg :=
              if strContains res "shared object" && !pkg.installs_any_shared_libs then
                { pkg with installs_any_shared_libs := true }
              else pkg
            let pkg := if !pkg.broken then { pkg with broken := true } else pkg
            let pkg := { pkg with dyn_paths := pkg.dyn_paths ++ [installed_path] }
            let pkg :=
              if pkg.broken then { pkg with contents := pkg.contents ++ [installed_path] }
              else pkg
            some pkg

/-- Fold of scanLine over the CONTENTS lines. -/
def scanAll (deep : Bool) (probe : String → String) :
    Package → List String → Option Package
  | pkg, [] => some pkg
  | pkg, line :: rest =>
    match scanLine deep probe pkg line with
    | none => none
    | some pkg2 => scanAll deep probe pkg2 rest

/-- Verdict of the per-package pass of find_corrupt_pkgs. The skipped
constructors are the early `continue`s, exitNoContents the `sys.exit(1)` on a
missing manifest, crashed the uncaught ValueError from a malformed line, and
the numbered fine/broken constructors the numbered rules of the decision
chain. -/
inductive Verdict where
  | skippedVirtual
  | skippedBoth
  | skippedMerging
  | skippedLockfile
  | exitNoContents
  | crashed
  | fine2
  | fine3
  | broken3
  | broken4
  | broken5
  | unexpected
deriving DecidableEq, Repr

/-- True exactly for the verdicts that append the package to
broken_packages. -/
def isBroken : Verdict → Bool
  | .broken3 => true
  | .broken4 => true
  | .broken5 => true
  | _ => false

/-- Result of processing one package directory: the verdict, whether the
CONTENTS manifest was opened, and the final package state. -/
structure ClassifyResult where
  verdict : Verdict
  readContents : Bool
  pkg : Package
deriving DecidableEq, Repr

/-- Decision chain applied after the manifest scan (rules 2 to 5 and the
unexpected fallthrough of find_corrupt_pkgs). -/
def applyRules (d : PackageDir) (pkg : Package) : Verdict :=
  if !pkg.installs_any_dyn_executable && !pkg.installs_any_shared_libs then
    .fine2
  else if d.hasNEEDED && !d.hasPROVIDES then
    if pkg.installs_any_shared_libs then .broken3 else .fine3
  else if d.hasPROVIDES && !d.hasNEEDED then
    .broken4
  else if !d.hasPROVIDES && !d.hasNEEDED && !d.hasREQUIRES then
    .broken5
  else
    .unexpected

/-- Per-directory body of the find_corrupt_pkgs loop. -/
def classifyOne (deep : Bool) (d : PackageDir) : ClassifyResult :=
  let pkg0 : Package :=
    { cpf := d.cpf, contents := [], dyn_paths := [], broken := false,
      installs_any_dyn_executable := false, installs_any_shared_libs := false }
  if strContains d.cpf "virtual/" || strContains d.cpf "acct-" then
    ⟨.skippedVirtual, false, pkg0⟩
  else if d.hasPROVIDES && d.hasNEEDED then
    ⟨.skippedBoth, false, pkg0⟩
  else if strContains d.cpf "-MERGING-" then
    ⟨.skippedMerging, false, pkg0⟩
  else if strContains d.pf ".portage_lockfile" then
    ⟨.skippedLockfile, false, pkg0⟩
  else
    match d.contentsText with
    | none => ⟨.exitNoContents, false, pkg0⟩
    | some text =>
      match scanAll deep d.probe pkg0 (strSplit text '\n') with
      | none => ⟨.crashed, true, pkg0⟩
      | some pkg => ⟨applyRules d pkg, true, pkg⟩

/-- Run-aborting exits of find_corrupt_pkgs: `sys.exit(1)` on a missing
CONTENTS file, or the uncaught ValueError from a malformed manifest line. -/
inductive RunExit where
  | noContents (cpf : String)
  | lineCrash (cpf : String)
deriving DecidableEq, Repr

/-- find_corrupt_pkgs over the directory list produced by the glob: the broken
package list (in scan order) and the unexpected_case_found flag. -/
def find_corrupt_pkgs (deep : Bool) : List PackageDir → Except RunExit (List Package × Bool)
  | [] => .ok ([], false)
  | d :: rest =>
    let r := classifyOne deep d
    if r.verdict = .exitNoContents then .error (.noContents r.pkg.cpf)
    else if r.verdict = .crashed then .error (.lineCrash r.pkg.cpf)
    else
      match find_corrupt_pkgs deep rest with
      | .error e => .error e
      | .ok (bs, flag) =>
        .ok ((if isBroken r.verdict then r.pkg :: bs else bs),
             (if r.verdict = .unexpected then true else flag))

/-! Staging writer. -/

/-- Errors raised by ModelFileSystem.add: the RuntimeError on a rewritten
path that does not stay under the staging root, and the ValueError on blank
contents. Each carries the path the source interpolates into the message. -/
inductive AddError where
  | nonPrefixed (path : String)
  | blankContents (path : String)
deriving DecidableEq, Repr

/-- Mirror of the ModelFileSystem class: its configured staging root, stored
as Python stores it, i.e. the str of a pathlib.Path. -/
structure ModelFileSystem where
  root : String
deriving DecidableEq, Repr

/-- Python truthiness of the strip argument: None and the empty string are
falsy. -/
def stripTruthy : Option String → Option String
  | none => none
  | some s => if s = "" then none else some s

/-- Constructor of ModelFileSystem: a truthy root is kept (as a Path),
otherwise a fresh temporary directory (passed in here, since tempfile is an
external effect). -/
def mkModelFileSystem (root : Option String) (tempRoot : String) : ModelFileSystem :=
  match stripTruthy root with
  | some r => ⟨pathNorm r⟩
  | none => ⟨pathNorm tempRoot⟩

/-- ModelFileSystem.add: with a truthy strip, rewrite the first occurrence of
the rstripped strip in the path to the staging root, refuse a result that
does not start with the root, then write non-blank contents (returning the
written path and contents) or raise ValueError on blank contents. Without a
truthy strip, no rewrite and no root check happen. The mkdir of the parent
directories is a side effect with no bearing on the written file. -/
def ModelFileSystem.add (fs : ModelFileSystem) (path contents : String)
    (strip : Option String) : Except AddError (String × String) :=
  match stripTruthy strip with
  | some s =>
    let original_path := replaceFirst (pathNorm path) (rstripSlash s) fs.root
    let new_path := pathNorm original_path
    if !strStartsWith new_path fs.root then .error (.nonPrefixed new_path)
    else if contents ≠ "" then .ok (new_path, contents)
    else .error (.blankContents path)
  | none =>
    let new_path := pathNorm path
    if contents ≠ "" then .ok (new_path, contents)
    else .error (.blankContents path)

/-! Soname dependency synthesis glue in fix_vdb. -/

/-- Mirror of portage's NeededEntry record (arch, object filename, soname,
runpaths, needed sonames, optional multilib category). -/
structure NeededEntry where
  arch : String
  filename : String
  soname : String
  runpaths : List String
  needed : List String
  multilib_category : Option String
deriving DecidableEq, Repr

/-- The fixed architecture to multilib-category table nabbed from Portage
LinkageMapELF. -/
def approx_multilib_categories : List (String × String) :=
  [("386", "x86_32"), ("68K", "m68k_32"), ("AARCH64", "arm_64"),
   ("ALPHA", "alpha_64"), ("ARM", "arm_32"), ("IA_64", "ia64_64"),
   ("MIPS", "mips_o32"), ("PARISC", "hppa_64"), ("PPC", "ppc_32"),
   ("PPC64", "ppc_64"), ("S390", "s390_64"), ("SH", "sh_32"),
   ("SPARC", "sparc_32"), ("SPARC32PLUS", "sparc_32"), ("SPARCV9", "sparc_64"),
   ("X86_64", "x86_64")]

/-- The multilib fill-in inside the fix_vdb loop: a missing multilib category
becomes the table value for the arch, defaulting to the arch itself
(Python dict.get(arch, arch)); a present category is left untouched. -/
def fillMultilib (e : NeededEntry) : NeededEntry :=
  match e.multilib_category with
  | none =>
    { e with
      multilib_category := some ((approx_multilib_categories.lookup e.arch).getD e.arch) }
  | some _ => e

/-- The NEEDED.ELF.2 lines fix_vdb feeds to the SonameDepsProcessor: split on
newlines, drop blank lines, parse each (collaborator), fill in the multilib
category. -/
def parsedEntries (parseNE : String → NeededEntry) (neededElf2 : String) :
    List NeededEntry :=
  ((strSplit neededElf2 '\n').filter (fun line => line ≠ "")).map
    (fun line => fillMultilib (parseNE line))

/-- The corrected_vdb mapping of fix_vdb, as a function from record name to
regenerated content; pr is the (provides, requires) pair produced by the
SonameDepsProcessor. -/
def correctedVdb (needed neededElf2 : String) (pr : String × String) :
    String → String :=
  fun entry =>
    if entry = "NEEDED" then needed
    else if entry = "NEEDED.ELF.2" then neededElf2
    else if entry = "PROVIDES" then pr.1
    else pr.2

/-- Errors escaping fix_vdb: the RuntimeError raised on a blank synthesized
PROVIDES for a shared-lib-installing package, and the uncaught RuntimeError
propagating out of ModelFileSystem.add. -/
inductive FixError where
  | emptyProvides (cpf : String)
  | nonPrefixedWrite (path : String)
deriving DecidableEq, Repr

/-- Result of a completed fix_vdb: the early return on a blank scanelf NEEDED,
or the list of (path, contents) files written to the staging filesystem. -/
inductive FixResult where
  | nothingToFix
  | wrote (writes : List (String × String))
deriving DecidableEq, Repr

/-- The write loop at the end of fix_vdb over the four record names: a blank
PROVIDES raises for a shared-lib package and is skipped otherwise; the
ValueError from a blank add is caught, logged and skipped; the RuntimeError
from a non-prefixed add propagates. -/
def fixLoop (fs : ModelFileSystem) (vdb_path pfx : String) (pkg : Package)
    (corrected : String → String) :
    List String → List (String × String) → Except FixError (List (String × String))
  | [], acc => .ok acc
  | entry :: rest, acc =>
    if entry = "PROVIDES" ∧ corrected entry = "" then
      if pkg.installs_any_shared_libs then .error (.emptyProvides pkg.cpf)
      else fixLoop fs vdb_path pfx pkg corrected rest acc
    else
      match fs.add (pfx ++ "/" ++ lstripSlash entry) (corrected entry) (some vdb_path) with
      | .ok w => fixLoop fs vdb_path pfx pkg corrected rest (acc ++ [w])
      | .error (.blankContents _) => fixLoop fs vdb_path pfx pkg corrected rest acc
      | .error (.nonPrefixed p) => .error (.nonPrefixedWrite p)

/-- fix_vdb for one broken package. The scanelf wrapper is the collaborator
turning the space-joined dyn_paths into the NEEDED and NEEDED.ELF.2 raw
contents (none models a missing NEEDED file, the "nothing to fix" early
return); parseNE models portage NeededEntry.parse; sonameDeps models the
SonameDepsProcessor fold yielding (provides, requires). -/
def fix_vdb (vdb_path : String) (fs : ModelFileSystem) (pkg : Package)
    (scanelf : String → Option (String × String))
    (parseNE : String → NeededEntry)
    (sonameDeps : List NeededEntry → String × String) :
    Except FixError FixResult :=
  match scanelf (String.intercalate " " pkg.dyn_paths) with
  | none => .ok .nothingToFix
  | some (needed, neededElf2) =>
    match fixLoop fs vdb_path (vdb_path ++ "/" ++ pkg.cpf) pkg
        (correctedVdb needed neededElf2 (sonameDeps (parsedEntries parseNE neededElf2)))
        ["NEEDED", "NEEDED.ELF.2", "PROVIDES", "REQUIRES"] [] with
    | .ok ws => .ok (.wrote ws)
    | .error e => .error e

/-! The overall run. -/

/-- Outcome of start: the two exit(1) aborts (missing manifest mid-scan,
unexpected classification after the full pass), the crash on a malformed
manifest line, the no-broken-packages success, and the repair pass. Only the
fixedAll constructor carries a constructed ModelFileSystem root and fix_vdb
results: the aborts happen before any ModelFileSystem exists or any record is
written. -/
inductive StartResult where
  | exitMissingContents (cpf : String)
  | crashed (cpf : String)
  | exitUnexpected
  | noBroken
  | fixedAll (root : String) (results : List (Except FixError FixResult))
deriving Repr

/-- The start entry point: classify everything, abort on an unexpected case,
otherwise construct the staging filesystem and repair each broken package. -/
def start (vdb : String) (output : Option String) (deep : Bool)
    (dirs : List PackageDir) (tempRoot : String)
    (scanelf : String → Option (String × String))
    (parseNE : String → NeededEntry)
    (sonameDeps : List NeededEntry → String × String) : StartResult :=
  match find_corrupt_pkgs deep dirs with
  | .error (.noContents cpf) => .exitMissingContents cpf
  | .error (.lineCrash cpf) => .crashed cpf
  | .ok (corrupt, flag) =>
    if flag then .exitUnexpected
    else
      match corrupt with
      | [] => .noBroken
      | _ =>
        let fs := mkModelFileSystem output tempRoot
        .fixedAll fs.root
          (corrupt.map (fun p => fix_vdb vdb fs p scanelf parseNE sonameDeps))

/-! Helper lemmas. -/

/-- The decision chain yields a broken verdict only when at least one derived
binary boolean is set: the rule-2 branch fires first otherwise. -/
theorem applyRules_broken_installs (d : PackageDir) (pkg : Package)
    (hb : isBroken (applyRules d pkg) = true) :
    pkg.installs_any_dyn_executable = true ∨ pkg.installs_any_shared_libs = true := by
  cases he : pkg.installs_any_dyn_executable with
  | true => exact Or.inl rfl
  | false =>
    cases hl : pkg.installs_any_shared_libs with
    | true => exact Or.inr rfl
    | false =>
      unfold applyRules at hb
      rw [he, hl] at hb
      simp [isBroken] at hb

/-- Case shape of classifyOne: either an early skip or exit without reading
the manifest, or the manifest was read and the verdict is either the crash or
the outcome of the decision chain on the scanned package state. -/
theorem classifyOne_cases (deep : Bool) (d : PackageDir) :
    ((classifyOne deep d).readContents = false ∧
      ((classifyOne deep d).verdict = .skippedVirtual ∨
       (classifyOne deep d).verdict = .skippedBoth ∨
       (classifyOne deep d).verdict = .skippedMerging ∨
       (classifyOne deep d).verdict = .skippedLockfile ∨
       (classifyOne deep d).verdict = .exitNoContents)) ∨
    ((classifyOne deep d).readContents = true ∧
      ((classifyOne deep d).verdict = .crashed ∨
       (classifyOne deep d).verdict = applyRules d (classifyOne deep d).pkg)) := by
  unfold classifyOne
  dsimp only
  repeat' split
  all_goals simp

/-- Any package emitted with a broken verdict has at least one of its derived
binary booleans set. -/
theorem classify_broken_installs (deep : Bool) (d : PackageDir)
    (hb : isBroken (classifyOne deep d).verdict = true) :
    (classifyOne deep d).pkg.installs_any_dyn_executable = true ∨
    (classifyOne deep d).pkg.installs_any_shared_libs = true := by
  rcases classifyOne_cases deep d with ⟨-, hs⟩ | ⟨-, hs⟩
  · exfalso
    rcases hs with h | h | h | h | h <;> rw [h] at hb <;> simp [isBroken] at hb
  · rcases hs with h | h
    · rw [h] at hb; simp [isBroken] at hb
    · rw [h] at hb
      exact applyRules_broken_installs d _ hb

/-- Unfolding of find_corrupt_pkgs over one non-aborting package. -/
theorem fcp_cons (deep : Bool) (d : PackageDir) (rest : List PackageDir)
    (h3 : (classifyOne deep d).verdict ≠ .exitNoContents)
    (h4 : (classifyOne deep d).verdict ≠ .crashed)
    (bs : List Package) (flag : Bool)
    (h : find_corrupt_pkgs deep rest = .ok (bs, flag)) :
    find_corrupt_pkgs deep (d :: rest) =
      .ok ((if isBroken (classifyOne deep d).verdict then
              (classifyOne deep d).pkg :: bs else bs),
           (if (classifyOne deep d).verdict = .unexpected then true else flag)) := by
  unfold find_corrupt_pkgs
  simp only [h, if_neg h3, if_neg h4]

/-- Composition of find_corrupt_pkgs over list append when both halves
complete. -/
theorem fcp_append (deep : Bool) (xs ys : List PackageDir)
    (bs1 : List Package) (f1 : Bool)
    (h1 : find_corrupt_pkgs deep xs = .ok (bs1, f1))
    (bs2 : List Package) (f2 : Bool)
    (h2 : find_corrupt_pkgs deep ys = .ok (bs2, f2)) :
    find_corrupt_pkgs deep (xs ++ ys) = .ok (bs1 ++ bs2, f1 || f2) := by
  induction xs generalizing bs1 f1 with
  | nil =>
    unfold find_corrupt_pkgs at h1
    simp only [Except.ok.injEq, Prod.mk.injEq] at h1
    obtain ⟨hb, hf⟩ := h1
    subst hb; subst hf
    simpa using h2
  | cons d rest ih =>
    unfold find_corrupt_pkgs at h1
    by_cases h3 : (classifyOne deep d).verdict = .exitNoContents
    · simp only [if_pos h3] at h1; cases h1
    by_cases h4 : (classifyOne deep d).verdict = .crashed
    · simp only [if_neg h3, if_pos h4] at h1; cases h1
    simp only [if_neg h3, if_neg h4] at h1
    rcases hrest : find_corrupt_pkgs deep rest with e | ⟨bs0, f0⟩
    · rw [hrest] at h1; cases h1
    · rw [hrest] at h1
      simp only [Except.ok.injEq, Prod.mk.injEq] at h1
      obtain ⟨hb, hf⟩ := h1
      have hally := ih bs0 f0 hrest
      rw [List.cons_append]
      rw [fcp_cons deep d (rest ++ ys) h3 h4 (bs0 ++ bs2) (f0 || f2) hally]
      subst hb; subst hf
      by_cases hu : (classifyOne deep d).verdict = .unexpected
      · have hbrk : isBroken (classifyOne deep d).verdict = false := by
          rw [hu]; rfl
        simp [hbrk, hu, isBroken]
      · by_cases hbrk : isBroken (classifyOne deep d).verdict = true
        · simp [hbrk, hu, Bool.or_assoc]
        · simp [hbrk, hu, Bool.or_assoc]

/-! Claim theorems. -/

/-- C2: every package placed in the broken list by find_corrupt_pkgs has at
least one of its derived booleans installs_any_dyn_executable or
installs_any_shared_libs true; a package with both false is never in the
broken list. -/
theorem broken_pkg_installs_elf (deep : Bool) (dirs : List PackageDir)
    (bs : List Package) (flag : Bool)
    (h : find_corrupt_pkgs deep dirs = .ok (bs, flag))
    (p : Package) (hp : p ∈ bs) :
    p.installs_any_dyn_executable = true ∨ p.installs_any_shared_libs = true := by
  induction dirs generalizing bs flag with
  | nil =>
    unfold find_corrupt_pkgs at h
    simp only [Except.ok.injEq, Prod.mk.injEq] at h
    obtain ⟨hb, _⟩ := h
    subst hb
    cases hp
  | cons d rest ih =>
    unfold find_corrupt_pkgs at h
    by_cases h3 : (classifyOne deep d).verdict = .exitNoContents
    · simp only [if_pos h3] at h; cases h
    by_cases h4 : (classifyOne deep d).verdict = .crashed
    · simp only [if_neg h3, if_pos h4] at h; cases h
    simp only [if_neg h3, if_neg h4] at h
    rcases hrest : find_corrupt_pkgs deep rest with e | ⟨bs0, f0⟩
    · rw [hrest] at h; cases h
    · rw [hrest] at h
      simp only [Except.ok.injEq, Prod.mk.injEq] at h
      obtain ⟨hb, _⟩ := h
      by_cases hbrk : isBroken (classifyOne deep d).verdict = true
      · rw [if_pos hbrk] at hb
        subst hb
        rcases List.mem_cons.mp hp with hph | hp2
        · subst hph
          exact classify_broken_installs deep d hbrk
        · exact ih bs0 f0 hrest hp2
      · rw [if_neg hbrk] at hb
        subst hb
        exact ih bs0 f0 hrest hp

/-- Witness for C2 at the cat-b/bar-2.0 scenario: a shared-object package
with no records lands in the broken list with a binary boolean set. -/
theorem broken_pkg_installs_elf_witness :
    (classifyOne false
      { category := "cat-b", pf := "bar-2.0", hasNEEDED := false,
        hasPROVIDES := false, hasREQUIRES := false,
        contentsText := some "obj /usr/lib/libbar.so.1 abc 123",
        probe := fun _ => "ELF 64-bit LSB shared object, dynamically linked" }).pkg.installs_any_dyn_executable = true ∨
    (classifyOne false
      { category := "cat-b", pf := "bar-2.0", hasNEEDED := false,
        hasPROVIDES := false, hasREQUIRES := false,
        contentsText := some "obj /usr/lib/libbar.so.1 abc 123",
        probe := fun _ => "ELF 64-bit LSB shared object, dynamically linked" }).pkg.installs_any_shared_libs = true :=
  broken_pkg_installs_elf false
    [{ category := "cat-b", pf := "bar-2.0", hasNEEDED := false,
       hasPROVIDES := false, hasREQUIRES := false,
       contentsText := some "obj /usr/lib/libbar.so.1 abc 123",
       probe := fun _ => "ELF 64-bit LSB shared object, dynamically linked" }]
    _ _ rfl _ (List.mem_singleton.mpr rfl)

/-- C3: a package directory with both PROVIDES and NEEDED present is skipped
as fine on the fast path: its CONTENTS manifest is never opened, it is not
added to the broken list, and the unexpected-case flag is not set. -/
theorem both_records_fine_no_manifest_read (deep : Bool) (d : PackageDir)
    (hP : d.hasPROVIDES = true) (hN : d.hasNEEDED = true) :
    (classifyOne deep d).readContents = false ∧
    isBroken (classifyOne deep d).verdict = false ∧
    (classifyOne deep d).verdict ≠ .unexpected ∧
    find_corrupt_pkgs deep [d] = .ok ([], false) := by
  have hcl : (classifyOne deep d).verdict = .skippedVirtual ∨
      (classifyOne deep d).verdict = .skippedBoth := by
    unfold classifyOne
    by_cases hv : (strContains d.cpf "virtual/" || strContains d.cpf "acct-") = true
    · simp [hv]
    · simp [hv, hP, hN]
  have hrc : (classifyOne deep d).readContents = false := by
    unfold classifyOne
    by_cases hv : (strContains d.cpf "virtual/" || strContains d.cpf "acct-") = true
    · simp [hv]
    · simp [hv, hP, hN]
  refine ⟨hrc, ?_, ?_, ?_⟩
  · rcases hcl with h | h <;> simp [h, isBroken]
  · rcases hcl with h | h <;> simp [h]
  · have h3 : (classifyOne deep d).verdict ≠ .exitNoContents := by
      rcases hcl with h | h <;> simp [h]
    have h4 : (classifyOne deep d).verdict ≠ .crashed := by
      rcases hcl with h | h <;> simp [h]
    rw [fcp_cons deep d [] h3 h4 [] false rfl]
    rcases hcl with h | h <;> simp [h, isBroken]

/-- Witness for C3 at a concrete directory holding both records. -/
theorem both_records_fine_no_manifest_read_witness :
    (classifyOne true
      { category := "net-misc", pf := "openssh-8.6_p1-r2", hasNEEDED := true,
        hasPROVIDES := true, hasREQUIRES := true, contentsText := none,
        probe := fun _ => "" }).readContents = false ∧
    isBroken (classifyOne true
      { category := "net-misc", pf := "openssh-8.6_p1-r2", hasNEEDED := true,
        hasPROVIDES := true, hasREQUIRES := true, contentsText := none,
        probe := fun _ => "" }).verdict = false ∧
    (classifyOne true
      { category := "net-misc", pf := "openssh-8.6_p1-r2", hasNEEDED := true,
        hasPROVIDES := true, hasREQUIRES := true, contentsText := none,
        probe := fun _ => "" }).verdict ≠ .unexpected ∧
    find_corrupt_pkgs true
      [{ category := "net-misc", pf := "openssh-8.6_p1-r2", hasNEEDED := true,
         hasPROVIDES := true, hasREQUIRES := true, contentsText := none,
         probe := fun _ => "" }] = .ok ([], false) :=
  both_records_fine_no_manifest_read true _ rfl rfl

/-- Rule 4 of the decision chain: PROVIDES without NEEDED is broken once a
binary of interest was detected. -/
theorem applyRules_rule4 (d : PackageDir) (pkg : Package)
    (hP : d.hasPROVIDES = true) (hN : d.hasNEEDED = false)
    (hel : (pkg.installs_any_dyn_executable || pkg.installs_any_shared_libs) = true) :
    applyRules d pkg = .broken4 := by
  cases he : pkg.installs_any_dyn_executable <;>
    cases hl : pkg.installs_any_shared_libs <;>
      simp_all [applyRules]

/-- Rule 3 of the decision chain: NEEDED without PROVIDES splits on the
shared-libs boolean once a binary of interest was detected. -/
theorem applyRules_rule3 (d : PackageDir) (pkg : Package)
    (hN : d.hasNEEDED = true) (hP : d.hasPROVIDES = false)
    (hel : (pkg.installs_any_dyn_executable || pkg.installs_any_shared_libs) = true) :
    applyRules d pkg = (if pkg.installs_any_shared_libs then .broken3 else .fine3) := by
  cases he : pkg.installs_any_dyn_executable <;>
    cases hl : pkg.installs_any_shared_libs <;>
      simp_all [applyRules]

/-- A package directory that reached the decision chain (manifest read, no
crash) got its verdict from applyRules on the scanned state. -/
theorem classify_decision (deep : Bool) (d : PackageDir)
    (hrc : (classifyOne deep d).readContents = true)
    (hcr : (classifyOne deep d).verdict ≠ .crashed) :
    (classifyOne deep d).verdict = applyRules d (classifyOne deep d).pkg := by
  rcases classifyOne_cases deep d with ⟨hf, -⟩ | ⟨-, hs⟩
  · rw [hrc] at hf; cases hf
  · rcases hs with h | h
    · exact absurd h hcr
    · exact h

/-- The concrete cat-c/baz-1.0 directory of the C1 counterexample: PROVIDES
present, NEEDED absent, and an empty manifest so that no binary of interest
is detected. -/
def cexBazDir : PackageDir :=
  { category := "cat-c", pf := "baz-1.0", hasNEEDED := false, hasPROVIDES := true,
    hasREQUIRES := false, contentsText := some "", probe := fun _ => "" }

/-- C1 counterexample: a package with PROVIDES present and NEEDED absent that
reaches classification is NOT placed in the broken list when no binary of
interest was detected — the rule-2 skip classifies it fine first, so the
claimed unconditional broken verdict is false. -/
theorem provides_without_needed_not_always_broken :
    cexBazDir.hasPROVIDES = true ∧ cexBazDir.hasNEEDED = false ∧
    (classifyOne true cexBazDir).readContents = true ∧
    (classifyOne true cexBazDir).verdict = .fine2 ∧
    find_corrupt_pkgs true [cexBazDir] = .ok ([], false) :=
  ⟨rfl, rfl, rfl, rfl, rfl⟩

/-- C1 amended: a package reaching the decision chain with PROVIDES present,
NEEDED absent, and at least one detected binary of interest is always
broken (rule 4), and find_corrupt_pkgs places it in the broken list. -/
theorem provides_without_needed_broken_with_binary (deep : Bool) (d : PackageDir)
    (hP : d.hasPROVIDES = true) (hN : d.hasNEEDED = false)
    (hrc : (classifyOne deep d).readContents = true)
    (hcr : (classifyOne deep d).verdict ≠ .crashed)
    (hel : ((classifyOne deep d).pkg.installs_any_dyn_executable ||
            (classifyOne deep d).pkg.installs_any_shared_libs) = true) :
    (classifyOne deep d).verdict = .broken4 ∧
    find_corrupt_pkgs deep [d] = .ok ([(classifyOne deep d).pkg], false) := by
  have hv : (classifyOne deep d).verdict = .broken4 := by
    rw [classify_decision deep d hrc hcr]
    exact applyRules_rule4 d _ hP hN hel
  refine ⟨hv, ?_⟩
  have h3 : (classifyOne deep d).verdict ≠ .exitNoContents := by rw [hv]; simp
  have h4 : (classifyOne deep d).verdict ≠ .crashed := hcr
  rw [fcp_cons deep d [] h3 h4 [] false rfl, hv]
  simp [isBroken]

/-- Witness for the amended C1: a PROVIDES-only package that installs a
shared object is placed in the broken list. -/
theorem provides_without_needed_broken_with_binary_witness :
    (classifyOne false
      { category := "cat-c", pf := "baz-1.0", hasNEEDED := false,
        hasPROVIDES := true, hasREQUIRES := false,
        contentsText := some "obj /usr/lib/libbaz.so.1 abc 123",
        probe := fun _ => "ELF 64-bit LSB shared object, dynamically linked" }).verdict = .broken4 ∧
    find_corrupt_pkgs false
      [{ category := "cat-c", pf := "baz-1.0", hasNEEDED := false,
         hasPROVIDES := true, hasREQUIRES := false,
         contentsText := some "obj /usr/lib/libbaz.so.1 abc 123",
         probe := fun _ => "ELF 64-bit LSB shared object, dynamically linked" }] =
      .ok ([(classifyOne false
        { category := "cat-c", pf := "baz-1.0", hasNEEDED := false,
          hasPROVIDES := true, hasREQUIRES := false,
          contentsText := some "obj /usr/lib/libbaz.so.1 abc 123",
          probe := fun _ => "ELF 64-bit LSB shared object, dynamically linked" }).pkg], false) :=
  provides_without_needed_broken_with_binary false _ rfl rfl rfl (by decide) rfl

/-- C4: a package reaching the decision chain with NEEDED present, PROVIDES
absent and at least one detected binary of interest is broken exactly when it
installs shared libraries, and fine (pure dynamically linked executables)
otherwise. -/
theorem needed_without_provides_split (deep : Bool) (d : PackageDir)
    (hN : d.hasNEEDED = true) (hP : d.hasPROVIDES = false)
    (hrc : (classifyOne deep d).readContents = true)
    (hcr : (classifyOne deep d).verdict ≠ .crashed)
    (hel : ((classifyOne deep d).pkg.installs_any_dyn_executable ||
            (classifyOne deep d).pkg.installs_any_shared_libs) = true) :
    ((classifyOne deep d).pkg.installs_any_shared_libs = true →
       (classifyOne deep d).verdict = .broken3) ∧
    ((classifyOne deep d).pkg.installs_any_shared_libs = false →
       (classifyOne deep d).verdict = .fine3) := by
  have hv := classify_decision deep d hrc hcr
  rw [applyRules_rule3 d _ hN hP hel] at hv
  constructor
  · intro hl; rw [hv, if_pos hl]
  · intro hl; rw [hv, hl]; simp

/-- Witness for C4 at the cat-a/foo-1.0 scenario: NEEDED present, no
PROVIDES, one dynamically linked executable and no shared libs gives fine. -/
theorem needed_without_provides_split_witness :
    (classifyOne false
      { category := "cat-a", pf := "foo-1.0", hasNEEDED := true,
        hasPROVIDES := false, hasREQUIRES := false,
        contentsText := some "obj /usr/bin/foo abc 123",
        probe := fun _ => "ELF 64-bit LSB pie executable, dynamically linked" }).verdict = .fine3 :=
  (needed_without_provides_split false
    { category := "cat-a", pf := "foo-1.0", hasNEEDED := true,
      hasPROVIDES := false, hasREQUIRES := false,
      contentsText := some "obj /usr/bin/foo abc 123",
      probe := fun _ => "ELF 64-bit LSB pie executable, dynamically linked" }
    rfl rfl rfl (by decide) (by decide)).2 rfl

/-- C7: an unexpected record combination at one package does not stop the
scan — every later package is still classified and the broken lists of the
surrounding packages are still collected — and start then exits before any
ModelFileSystem is constructed or any record written (the exitUnexpected
outcome carries no staging state). -/
theorem unexpected_completes_scan_then_aborts (deep : Bool)
    (pre post : List PackageDir) (u : PackageDir)
    (b1 : List Package) (f1 : Bool)
    (h1 : find_corrupt_pkgs deep pre = .ok (b1, f1))
    (b2 : List Package) (f2 : Bool)
    (h2 : find_corrupt_pkgs deep post = .ok (b2, f2))
    (hu : (classifyOne deep u).verdict = .unexpected)
    (vdb : String) (output : Option String) (tempRoot : String)
    (scanelf : String → Option (String × String))
    (parseNE : String → NeededEntry)
    (sonameDeps : List NeededEntry → String × String) :
    find_corrupt_pkgs deep (pre ++ u :: post) = .ok (b1 ++ b2, true) ∧
    start vdb output deep (pre ++ u :: post) tempRoot scanelf parseNE sonameDeps =
      .exitUnexpected := by
  have h3 : (classifyOne deep u).verdict ≠ .exitNoContents := by rw [hu]; simp
  have h4 : (classifyOne deep u).verdict ≠ .crashed := by rw [hu]; simp
  have hmid := fcp_cons deep u post h3 h4 b2 f2 h2
  rw [hu] at hmid
  simp only [isBroken, Bool.false_eq_true, if_false, if_pos rfl] at hmid
  have hall := fcp_append deep pre (u :: post) b1 f1 h1 b2 true hmid
  rw [Bool.or_true] at hall
  refine ⟨hall, ?_⟩
  unfold start
  rw [hall]
  simp

/-- Witness for C7: a single unexpected package (REQUIRES only, installing a
shared object) aborts the run with no staging filesystem. -/
theorem unexpected_completes_scan_then_aborts_witness :
    find_corrupt_pkgs false
      ([] ++ { category := "cat-u", pf := "unexp-1.0", hasNEEDED := false,
               hasPROVIDES := false, hasREQUIRES := true,
               contentsText := some "obj /usr/lib/libu.so.1 abc 123",
               probe := fun _ => "ELF 64-bit LSB shared object, dynamically linked" } :: []) =
      .ok ([] ++ [], true) ∧
    start "/var/db/pkg" none false
      ([] ++ { category := "cat-u", pf := "unexp-1.0", hasNEEDED := false,
               hasPROVIDES := false, hasREQUIRES := true,
               contentsText := some "obj /usr/lib/libu.so.1 abc 123",
               probe := fun _ => "ELF 64-bit LSB shared object, dynamically linked" } :: [])
      "/tmp/stage" (fun _ => none)
      (fun _ => { arch := "", filename := "", soname := "", runpaths := [],
                  needed := [], multilib_category := none })
      (fun _ => ("", "")) = .exitUnexpected :=
  unexpected_completes_scan_then_aborts false [] []
    { category := "cat-u", pf := "unexp-1.0", hasNEEDED := false,
      hasPROVIDES := false, hasREQUIRES := true,
      contentsText := some "obj /usr/lib/libu.so.1 abc 123",
      probe := fun _ => "ELF 64-bit LSB shared object, dynamically linked" }
    [] false rfl [] false rfl (by decide) "/var/db/pkg" none "/tmp/stage"
    (fun _ => none)
    (fun _ => { arch := "", filename := "", soname := "", runpaths := [],
                needed := [], multilib_category := none })
    (fun _ => ("", ""))

/-- Evaluation of ModelFileSystem.add under a falsy strip argument. -/
theorem add_eval_none (fs : ModelFileSystem) (path contents : String)
    (strip : Option String) (h : stripTruthy strip = none) :
    fs.add path contents strip =
      (if contents ≠ "" then .ok (pathNorm path, contents)
       else .error (.blankContents path)) := by
  unfold ModelFileSystem.add
  rw [h]

/-- Evaluation of ModelFileSystem.add under a truthy strip argument. -/
theorem add_eval_some (fs : ModelFileSystem) (path contents : String)
    (strip : Option String) (s : String) (h : stripTruthy strip = some s) :
    fs.add path contents strip =
      (if !strStartsWith (pathNorm (replaceFirst (pathNorm path) (rstripSlash s) fs.root))
          fs.root then
        .error (.nonPrefixed
          (pathNorm (replaceFirst (pathNorm path) (rstripSlash s) fs.root)))
       else if contents ≠ "" then
        .ok (pathNorm (replaceFirst (pathNorm path) (rstripSlash s) fs.root), contents)
       else .error (.blankContents path)) := by
  unfold ModelFileSystem.add
  rw [h]

/-- C6: any successful write performed by ModelFileSystem.add with the
database root passed as a truthy strip argument lands on a path that starts
with the configured staging root: the defensive check rejects everything
else, so no execution writes a file outside the staging root. -/
theorem add_write_stays_under_root (fs : ModelFileSystem)
    (path contents dbroot : String) (hdb : dbroot ≠ "")
    (hin : strStartsWith (pathNorm path) (rstripSlash dbroot) = true)
    (p c : String)
    (hok : fs.add path contents (some dbroot) = .ok (p, c)) :
    strStartsWith p fs.root = true := by
  have hstrip : stripTruthy (some dbroot) = some dbroot := by
    simp [stripTruthy, hdb]
  unfold ModelFileSystem.add at hok
  rw [hstrip] at hok
  dsimp only at hok
  by_cases hg : strStartsWith
      (pathNorm (replaceFirst (pathNorm path) (rstripSlash dbroot) fs.root))
      fs.root = true
  · rw [if_neg (by simp [hg])] at hok
    by_cases hc : contents ≠ ""
    · rw [if_pos hc] at hok
      simp only [Except.ok.injEq, Prod.mk.injEq] at hok
      obtain ⟨hp, -⟩ := hok
      rw [← hp]
      exact hg
    · rw [if_neg hc] at hok
      cases hok
  · rw [if_pos (by simp_all)] at hok
    cases hok

/-- Witness for C6 at a concrete in-root database path. -/
theorem add_write_stays_under_root_witness :
    strStartsWith "/tmp/out/dev-perl/XML-Parser-2.44-r1/NEEDED"
      (ModelFileSystem.mk "/tmp/out").root = true :=
  add_write_stays_under_root ⟨"/tmp/out"⟩
    "/var/db/pkg/dev-perl/XML-Parser-2.44-r1/NEEDED" "x86_64;libs" "/var/db/pkg"
    (by decide) (by decide) "/tmp/out/dev-perl/XML-Parser-2.44-r1/NEEDED" "x86_64;libs"
    rfl

/-- C10: without a truthy strip argument, ModelFileSystem.add writes non-empty
contents to the supplied path itself (only the pathlib.Path normalisation is
applied) with no rewrite and no staging-root containment check, and errors
only on blank contents. -/
theorem add_without_strip_plain_write (fs : ModelFileSystem)
    (path contents : String) :
    (contents ≠ "" → fs.add path contents none = .ok (pathNorm path, contents)) ∧
    (contents = "" → fs.add path contents none = .error (.blankContents path)) := by
  constructor
  · intro hc
    unfold ModelFileSystem.add stripTruthy
    dsimp only
    rw [if_pos hc]
  · intro hc
    unfold ModelFileSystem.add stripTruthy
    dsimp only
    rw [if_neg (not_not_intro hc)]

/-- Witness for C10: an arbitrary path far outside any staging root is
written as given when no strip argument is passed. -/
theorem add_without_strip_plain_write_witness :
    ModelFileSystem.add ⟨"/tmp/out"⟩ "/etc/someplace/file" "hello" none =
      .ok (pathNorm "/etc/someplace/file", "hello") :=
  (add_without_strip_plain_write ⟨"/tmp/out"⟩ "/etc/someplace/file" "hello").1
    (by decide)

/-! Fixtures shared by the fix_vdb witnesses. -/

/-- Staging filesystem fixture rooted at /tmp/out. -/
def fsOut : ModelFileSystem := ⟨"/tmp/out"⟩

/-- Broken-package fixture for the cat-b/bar-2.0 scenario: one installed
shared object. -/
def pkgBar : Package :=
  { cpf := "cat-b/bar-2.0", contents := ["/usr/lib/libbar.so.1"],
    dyn_paths := ["/usr/lib/libbar.so.1"], broken := true,
    installs_any_dyn_executable := false, installs_any_shared_libs := true }

/-- NeededEntry.parse collaborator fixture. -/
def parseFix : String → NeededEntry := fun _ =>
  { arch := "X86_64", filename := "/usr/lib/libbar.so.1", soname := "libbar.so.1",
    runpaths := [], needed := ["libc.so.6"], multilib_category := none }

/-- Stepping lemma for the fix_vdb write loop: a non-PROVIDES-blank entry
whose add succeeds appends its write and continues. -/
theorem fixLoop_step_ok (fs : ModelFileSystem) (vdb_path pfx : String)
    (pkg : Package) (corrected : String → String) (entry : String)
    (rest : List String) (acc : List (String × String))
    (hne : ¬(entry = "PROVIDES" ∧ corrected entry = ""))
    (w : String × String)
    (hw : fs.add (pfx ++ "/" ++ lstripSlash entry) (corrected entry) (some vdb_path) =
      .ok w) :
    fixLoop fs vdb_path pfx pkg corrected (entry :: rest) acc =
      fixLoop fs vdb_path pfx pkg corrected rest (acc ++ [w]) := by
  conv_lhs => rw [fixLoop]
  rw [if_neg hne, hw]

/-- Stepping lemma for the fix_vdb write loop: a blank-contents ValueError
from add is caught and the entry skipped. -/
theorem fixLoop_step_blank (fs : ModelFileSystem) (vdb_path pfx : String)
    (pkg : Package) (corrected : String → String) (entry : String)
    (rest : List String) (acc : List (String × String))
    (hne : ¬(entry = "PROVIDES" ∧ corrected entry = ""))
    (q : String)
    (hw : fs.add (pfx ++ "/" ++ lstripSlash entry) (corrected entry) (some vdb_path) =
      .error (.blankContents q)) :
    fixLoop fs vdb_path pfx pkg corrected (entry :: rest) acc =
      fixLoop fs vdb_path pfx pkg corrected rest acc := by
  conv_lhs => rw [fixLoop]
  rw [if_neg hne, hw]

/-- Stepping lemma for the fix_vdb write loop at a blank PROVIDES entry: the
RuntimeError for a shared-lib package, the silent skip otherwise. -/
theorem fixLoop_provides_blank (fs : ModelFileSystem) (vdb_path pfx : String)
    (pkg : Package) (corrected : String → String)
    (rest : List String) (acc : List (String × String))
    (hpe : corrected "PROVIDES" = "") :
    fixLoop fs vdb_path pfx pkg corrected ("PROVIDES" :: rest) acc =
      (if pkg.installs_any_shared_libs then .error (.emptyProvides pkg.cpf)
       else fixLoop fs vdb_path pfx pkg corrected rest acc) := by
  conv_lhs => rw [fixLoop]
  rw [if_pos ⟨rfl, hpe⟩]

/-- C5: when the scanelf collaborator produced records and the synthesized
PROVIDES content is empty, fix_vdb raises the invariant-violation error for a
package that installs shared libraries, and for a package that does not, the
PROVIDES record is skipped without error and the remaining records are still
written. -/
theorem empty_provides_error_or_skip (vdb : String) (fs : ModelFileSystem)
    (pkg : Package) (scanelf : String → Option (String × String))
    (parseNE : String → NeededEntry)
    (sonameDeps : List NeededEntry → String × String)
    (needed neededElf2 : String)
    (hscan : scanelf (String.intercalate " " pkg.dyn_paths) = some (needed, neededElf2))
    (hprov : (sonameDeps (parsedEntries parseNE neededElf2)).1 = "")
    (w1 w2 : String × String)
    (hw1 : fs.add (vdb ++ "/" ++ pkg.cpf ++ "/" ++ lstripSlash "NEEDED")
             needed (some vdb) = .ok w1)
    (hw2 : fs.add (vdb ++ "/" ++ pkg.cpf ++ "/" ++ lstripSlash "NEEDED.ELF.2")
             neededElf2 (some vdb) = .ok w2) :
    (pkg.installs_any_shared_libs = true →
       fix_vdb vdb fs pkg scanelf parseNE sonameDeps =
         .error (.emptyProvides pkg.cpf)) ∧
    (pkg.installs_any_shared_libs = false →
       ∀ w3, fs.add (vdb ++ "/" ++ pkg.cpf ++ "/" ++ lstripSlash "REQUIRES")
               (sonameDeps (parsedEntries parseNE neededElf2)).2 (some vdb) = .ok w3 →
       fix_vdb vdb fs pkg scanelf parseNE sonameDeps = .ok (.wrote [w1, w2, w3])) := by
  have hne1 : ¬(("NEEDED" : String) = "PROVIDES" ∧
      correctedVdb needed neededElf2
        (sonameDeps (parsedEntries parseNE neededElf2)) "NEEDED" = "") :=
    fun hx => absurd hx.1 (by decide)
  have hne2 : ¬(("NEEDED.ELF.2" : String) = "PROVIDES" ∧
      correctedVdb needed neededElf2
        (sonameDeps (parsedEntries parseNE neededElf2)) "NEEDED.ELF.2" = "") :=
    fun hx => absurd hx.1 (by decide)
  have hne4 : ¬(("REQUIRES" : String) = "PROVIDES" ∧
      correctedVdb needed neededElf2
        (sonameDeps (parsedEntries parseNE neededElf2)) "REQUIRES" = "") :=
    fun hx => absurd hx.1 (by decide)
  have hw1' : fs.add (vdb ++ "/" ++ pkg.cpf ++ "/" ++ lstripSlash "NEEDED")
      (correctedVdb needed neededElf2
        (sonameDeps (parsedEntries parseNE neededElf2)) "NEEDED")
      (some vdb) = .ok w1 := hw1
  have hw2' : fs.add (vdb ++ "/" ++ pkg.cpf ++ "/" ++ lstripSlash "NEEDED.ELF.2")
      (correctedVdb needed neededElf2
        (sonameDeps (parsedEntries parseNE neededElf2)) "NEEDED.ELF.2")
      (some vdb) = .ok w2 := hw2
  have hpe : correctedVdb needed neededElf2
      (sonameDeps (parsedEntries parseNE neededElf2)) "PROVIDES" = "" := hprov
  constructor
  · intro hlibs
    simp only [fix_vdb, hscan]
    rw [fixLoop_step_ok fs vdb (vdb ++ "/" ++ pkg.cpf) pkg _ "NEEDED" _ _ hne1 w1 hw1']
    rw [fixLoop_step_ok fs vdb (vdb ++ "/" ++ pkg.cpf) pkg _ "NEEDED.ELF.2" _ _ hne2 w2 hw2']
    rw [fixLoop_provides_blank fs vdb (vdb ++ "/" ++ pkg.cpf) pkg _ _ _ hpe]
    rw [if_pos hlibs]
  · intro hlibs w3 hw3
    have hw3' : fs.add (vdb ++ "/" ++ pkg.cpf ++ "/" ++ lstripSlash "REQUIRES")
        (correctedVdb needed neededElf2
          (sonameDeps (parsedEntries parseNE neededElf2)) "REQUIRES")
        (some vdb) = .ok w3 := hw3
    simp only [fix_vdb, hscan]
    rw [fixLoop_step_ok fs vdb (vdb ++ "/" ++ pkg.cpf) pkg _ "NEEDED" _ _ hne1 w1 hw1']
    rw [fixLoop_step_ok fs vdb (vdb ++ "/" ++ pkg.cpf) pkg _ "NEEDED.ELF.2" _ _ hne2 w2 hw2']
    rw [fixLoop_provides_blank fs vdb (vdb ++ "/" ++ pkg.cpf) pkg _ _ _ hpe]
    rw [if_neg (by simp [hlibs])]
    rw [fixLoop_step_ok fs vdb (vdb ++ "/" ++ pkg.cpf) pkg _ "REQUIRES" _ _ hne4 w3 hw3']
    rw [fixLoop]
    simp

/-- Witness for C5 at the cat-b/bar-2.0 fixture: empty synthesized PROVIDES
for a shared-lib package raises the error. -/
theorem empty_provides_error_or_skip_witness :
    fix_vdb "/var/db/pkg" fsOut pkgBar (fun _ => some ("n", "e")) parseFix
      (fun _ => ("", "r")) = .error (.emptyProvides pkgBar.cpf) :=
  (empty_provides_error_or_skip "/var/db/pkg" fsOut pkgBar
    (fun _ => some ("n", "e")) parseFix (fun _ => ("", "r")) "n" "e" rfl rfl
    ("/tmp/out/cat-b/bar-2.0/NEEDED", "n")
    ("/tmp/out/cat-b/bar-2.0/NEEDED.ELF.2", "e")
    rfl rfl).1 rfl

/-- C8: ModelFileSystem.add fails exactly on blank contents whenever the
rewritten path passes the root check (first part), and fix_vdb catches that
ValueError and continues writing the remaining records, so a blank-content
write attempt never aborts the repair (second part, shown with the REQUIRES
write failing blank while the other records are still written). -/
theorem add_blank_error_caught :
    (∀ (fs : ModelFileSystem) (path contents : String) (strip : Option String),
       (∀ q, fs.add path contents strip ≠ .error (.nonPrefixed q)) →
       (fs.add path contents strip = .error (.blankContents path) ↔ contents = "")) ∧
    (∀ (vdb : String) (fs : ModelFileSystem) (pkg : Package)
       (scanelf : String → Option (String × String))
       (parseNE : String → NeededEntry)
       (sonameDeps : List NeededEntry → String × String)
       (needed neededElf2 : String),
       scanelf (String.intercalate " " pkg.dyn_paths) = some (needed, neededElf2) →
       ∀ (w1 w2 w3 : String × String) (q : String),
       fs.add (vdb ++ "/" ++ pkg.cpf ++ "/" ++ lstripSlash "NEEDED")
         needed (some vdb) = .ok w1 →
       fs.add (vdb ++ "/" ++ pkg.cpf ++ "/" ++ lstripSlash "NEEDED.ELF.2")
         neededElf2 (some vdb) = .ok w2 →
       (sonameDeps (parsedEntries parseNE neededElf2)).1 ≠ "" →
       fs.add (vdb ++ "/" ++ pkg.cpf ++ "/" ++ lstripSlash "PROVIDES")
         (sonameDeps (parsedEntries parseNE neededElf2)).1 (some vdb) = .ok w3 →
       fs.add (vdb ++ "/" ++ pkg.cpf ++ "/" ++ lstripSlash "REQUIRES")
         (sonameDeps (parsedEntries parseNE neededElf2)).2 (some vdb) =
           .error (.blankContents q) →
       fix_vdb vdb fs pkg scanelf parseNE sonameDeps = .ok (.wrote [w1, w2, w3])) := by
  constructor
  · intro fs path contents strip hnp
    rcases hst : stripTruthy strip with _ | s
    · rw [add_eval_none fs path contents strip hst] at hnp ⊢
      by_cases hc : contents = ""
      · rw [if_neg (not_not_intro hc)]
        simp [hc]
      · rw [if_pos hc]
        simp [hc]
    · rw [add_eval_some fs path contents strip s hst] at hnp ⊢
      by_cases hg : strStartsWith
          (pathNorm (replaceFirst (pathNorm path) (rstripSlash s) fs.root))
          fs.root = true
      · rw [if_neg (by simp [hg])] at hnp ⊢
        by_cases hc : contents = ""
        · rw [if_neg (not_not_intro hc)]
          simp [hc]
        · rw [if_pos hc]
          simp [hc]
      · exfalso
        have hgf : strStartsWith
            (pathNorm (replaceFirst (pathNorm path) (rstripSlash s) fs.root))
            fs.root = false := by
          rcases Bool.eq_false_or_eq_true (strStartsWith
            (pathNorm (replaceFirst (pathNorm path) (rstripSlash s) fs.root))
            fs.root) with h | h
          · exact absurd h hg
          · exact h
        refine hnp (pathNorm (replaceFirst (pathNorm path) (rstripSlash s) fs.root)) ?_
        rw [if_pos (by rw [hgf]; rfl)]
  · intro vdb fs pkg scanelf parseNE sonameDeps needed neededElf2 hscan
      w1 w2 w3 q hw1 hw2 hp hw3 hw4
    have hne1 : ¬(("NEEDED" : String) = "PROVIDES" ∧
        correctedVdb needed neededElf2
          (sonameDeps (parsedEntries parseNE neededElf2)) "NEEDED" = "") :=
      fun hx => absurd hx.1 (by decide)
    have hne2 : ¬(("NEEDED.ELF.2" : String) = "PROVIDES" ∧
        correctedVdb needed neededElf2
          (sonameDeps (parsedEntries parseNE neededElf2)) "NEEDED.ELF.2" = "") :=
      fun hx => absurd hx.1 (by decide)
    have hne3 : ¬(("PROVIDES" : String) = "PROVIDES" ∧
        correctedVdb needed neededElf2
          (sonameDeps (parsedEntries parseNE neededElf2)) "PROVIDES" = "") :=
      fun hx => absurd hx.2 hp
    have hne4 : ¬(("REQUIRES" : String) = "PROVIDES" ∧
        correctedVdb needed neededElf2
          (sonameDeps (parsedEntries parseNE neededElf2)) "REQUIRES" = "") :=
      fun hx => absurd hx.1 (by decide)
    have hw1' : fs.add (vdb ++ "/" ++ pkg.cpf ++ "/" ++ lstripSlash "NEEDED")
        (correctedVdb needed neededElf2
          (sonameDeps (parsedEntries parseNE neededElf2)) "NEEDED")
        (some vdb) = .ok w1 := hw1
    have hw2' : fs.add (vdb ++ "/" ++ pkg.cpf ++ "/" ++ lstripSlash "NEEDED.ELF.2")
        (correctedVdb needed neededElf2
          (sonameDeps (parsedEntries parseNE neededElf2)) "NEEDED.ELF.2")
        (some vdb) = .ok w2 := hw2
    have hw3' : fs.add (vdb ++ "/" ++ pkg.cpf ++ "/" ++ lstripSlash "PROVIDES")
        (correctedVdb needed neededElf2
          (sonameDeps (parsedEntries parseNE neededElf2)) "PROVIDES")
        (some vdb) = .ok w3 := hw3
    have hw4' : fs.add (vdb ++ "/" ++ pkg.cpf ++ "/" ++ lstripSlash "REQUIRES")
        (correctedVdb needed neededElf2
          (sonameDeps (parsedEntries parseNE neededElf2)) "REQUIRES")
        (some vdb) = .error (.blankContents q) := hw4
    simp only [fix_vdb, hscan]
    rw [fixLoop_step_ok fs vdb (vdb ++ "/" ++ pkg.cpf) pkg _ "NEEDED" _ _ hne1 w1 hw1']
    rw [fixLoop_step_ok fs vdb (vdb ++ "/" ++ pkg.cpf) pkg _ "NEEDED.ELF.2" _ _ hne2 w2 hw2']
    rw [fixLoop_step_ok fs vdb (vdb ++ "/" ++ pkg.cpf) pkg _ "PROVIDES" _ _ hne3 w3 hw3']
    rw [fixLoop_step_blank fs vdb (vdb ++ "/" ++ pkg.cpf) pkg _ "REQUIRES" _ _ hne4 q hw4']
    rw [fixLoop]
    simp

/-- Witness for C8: a blank write without strip raises the ValueError, via the
first part of the theorem. -/
theorem add_blank_error_caught_witness :
    ModelFileSystem.add ⟨"/tmp/out"⟩ "/tmp/out/somewhere/CONTENTS" "" none =
      .error (.blankContents "/tmp/out/somewhere/CONTENTS") :=
  (add_blank_error_caught.1 ⟨"/tmp/out"⟩ "/tmp/out/somewhere/CONTENTS" "" none
    (by
      intro q h
      have hval : ModelFileSystem.add ⟨"/tmp/out"⟩
          "/tmp/out/somewhere/CONTENTS" "" none =
          .error (.blankContents "/tmp/out/somewhere/CONTENTS") := rfl
      rw [hval] at h
      simp at h)).mpr
    rfl

/-- C9: a parsed linkage record with no multilib tag gets the fixed table
value for its architecture when the architecture is a key, the architecture
string itself otherwise; a record whose tag is present is returned
unchanged. -/
theorem multilib_fill_table (e : NeededEntry) :
    (e.multilib_category = none →
       (∀ v, approx_multilib_categories.lookup e.arch = some v →
          fillMultilib e = { e with multilib_category := some v }) ∧
       (approx_multilib_categories.lookup e.arch = none →
          fillMultilib e = { e with multilib_category := some e.arch })) ∧
    (∀ c, e.multilib_category = some c → fillMultilib e = e) := by
  constructor
  · intro hnone
    constructor
    · intro v hv
      unfold fillMultilib
      rw [hnone]
      simp [hv]
    · intro hv
      unfold fillMultilib
      rw [hnone]
      simp [hv]
  · intro c hc
    unfold fillMultilib
    rw [hc]

/-- Witness for C9 at a concrete X86_64 record missing its tag. -/
theorem multilib_fill_table_witness :
    fillMultilib
      { arch := "X86_64", filename := "/usr/lib/libbar.so.1",
        soname := "libbar.so.1", runpaths := [], needed := ["libc.so.6"],
        multilib_category := none } =
      { arch := "X86_64", filename := "/usr/lib/libbar.so.1",
        soname := "libbar.so.1", runpaths := [], needed := ["libc.so.6"],
        multilib_category := some "x86_64" } :=
  ((multilib_fill_table
    { arch := "X86_64", filename := "/usr/lib/libbar.so.1",
      soname := "libbar.so.1", runpaths := [], needed := ["libc.so.6"],
      multilib_category := none }).1 rfl).1 "x86_64" (by decide)

end RecoverBrokenVdb
